import Mathlib

set_option maxRecDepth 8000

/-!
Verification development for the ai-rag-analyzer backend
(src/backend/main.py). Text is modelled as `List Char` (Python strings
are sequences of code points). External collaborators (disk, PyPDF2,
Pinecone) are modelled by environment records carrying their outcomes;
the control flow of the handlers is translated from the source.
-/

/-- Modelled from the spec: the chunking algorithm itself is implemented by
the external langchain RecursiveCharacterTextSplitter, whose source is not
part of this repository; `chunk_text` (src/backend/main.py:71-86) only
invokes it with chunk_size=1000, chunk_overlap=200, length_function=len.
Per the spec (section 1: chunking is a fixed-size sliding window; section
4.2: each chunk after the first starts `overlap` characters before the
previous chunk end, the final chunk may be shorter, empty input gives an
empty sequence) the splitter is modelled as a sliding window of width 1000
and step 800. `fuel` is an upper bound on the input length, used only to
make the recursion structural; it is always instantiated with the length
of the text. -/
def windowGo : Nat → List Char → List (List Char)
  | 0, t => if t.length = 0 then [] else [t]
  | fuel + 1, t =>
    if t.length ≤ 1000 then (if t.length = 0 then [] else [t])
    else t.take 1000 :: windowGo fuel (t.drop 800)

/-- Translation of `chunk_text` (src/backend/main.py:71-86): split the raw
text into overlapping chunks, configuration chunk_size=1000, overlap=200
(the splitter itself is modelled from the spec, see `windowGo`). -/
def chunk_text (raw_text : List Char) : List (List Char) :=
  windowGo raw_text.length raw_text

/-- Operation named by claim C2: concatenate a chunk sequence while
dropping the known 200-character overlap from every chunk after the
first. -/
def overlap_concat : List (List Char) → List Char
  | [] => []
  | c :: rest => c ++ (rest.map (fun d => d.drop 200)).flatten

/-- Relation named by claim C4: chunk `b` starts with the final 200
characters of chunk `a` (a 200-character suffix/prefix overlap). -/
def shares_overlap (a b : List Char) : Prop :=
  b.take 200 = a.drop (a.length - 200)

/-- Translation of the page loop of `extract_text_from_pdf`
(src/backend/main.py:59-66): starting from the empty accumulator, append
each page text followed by a newline, skipping pages whose extracted text
is empty (Python truthiness of the extracted string). -/
def pages_text (pages : List (List Char)) : List Char :=
  pages.foldl (fun acc e => if e.isEmpty then acc else acc ++ e ++ ['\n']) []

/-- Statement of the spec side of claim C6 (spec section 4.1): the
concatenation, in page order, of each page text followed by a newline,
where pages yielding no text contribute nothing. -/
def extract_spec (pages : List (List Char)) : List Char :=
  ((pages.filter (fun p => !p.isEmpty)).map (fun p => p ++ ['\n'])).flatten

/-- Outcome of opening and parsing the uploaded PDF with PyPDF2
(src/backend/main.py:61-63): either an exception message, or the
per-page extracted texts. -/
structure PdfRead where
  parseErr : Option String
  pages : List (List Char)

/-- Translation of `extract_text_from_pdf` (src/backend/main.py:49-69):
on a parse failure the exception is wrapped with the fixed message, else
the page texts are concatenated by `pages_text`. -/
def extract_text_from_pdf (pdf : PdfRead) : Except String (List Char) :=
  match pdf.parseErr with
  | some e => .error ("Failed to read PDF text: " ++ e)
  | none => .ok (pages_text pdf.pages)

/-- Translation of the filename check of `upload_file`
(src/backend/main.py:98): Python `filename.endswith(".pdf")`, i.e. the
final four characters of the filename are exactly `.pdf` (for filenames
shorter than four characters the test is false, which the drop-based
formulation also gives, since no such list can equal a four-element
list). -/
def endsWithPdf (filename : String) : Bool :=
  filename.toList.drop (filename.toList.length - 4) == (".pdf").toList

/-- HTTP error raised by the handlers, with status code and detail
message, as in fastapi HTTPException. -/
structure HTTPFailure where
  status_code : Nat
  detail : String

/-- Success payload of the upload handler (src/backend/main.py:127-131). -/
structure UploadResponse where
  message : String
  filename : String
  total_chunks : Nat

/-- Environment of one upload request: outcome of persisting the uploaded
bytes to the temporary path (line 104-105), outcome of opening and
parsing the persisted PDF (line 112), and outcome of the embed-and-store
call (line 117-121). -/
structure UploadEnv where
  saveErr : Option String
  pdf : PdfRead
  storeErr : Option String

/-- Observable outcome of one invocation of the upload handler: the HTTP
result, whether the temporary file temp_uploads/filename still exists
when the handler returns or raises, whether the upload stream was closed,
and whether any file input or output was performed. -/
structure UploadOutcome where
  result : Except HTTPFailure UploadResponse
  tempFileRemains : Bool
  streamClosed : Bool
  accessedFile : Bool

/-- Translation of `upload_file` (src/backend/main.py:92-131). The
filename check precedes all file access; a save failure raises 500 after
closing the stream (the finally block, line 108-109); extraction, then
chunking, then the store call follow, any failure being rewrapped as a
500 (line 124-125). No path ever removes the temporary file: the source
contains no delete call, so `tempFileRemains` is true on every path on
which the bytes were persisted. A save failure is modelled as the open
call failing, so no file is created on that path. -/
def upload_file (filename : String) (env : UploadEnv) : UploadOutcome :=
  if ¬ endsWithPdf filename then
    { result := .error ⟨400, "Invalid file type. Only PDFs are allowed."⟩,
      tempFileRemains := false, streamClosed := false, accessedFile := false }
  else
    match env.saveErr with
    | some e =>
      { result := .error ⟨500, "Could not save file: " ++ e⟩,
        tempFileRemains := false, streamClosed := true, accessedFile := true }
    | none =>
      match extract_text_from_pdf env.pdf with
      | .error e =>
        { result := .error ⟨500, e⟩,
          tempFileRemains := true, streamClosed := true, accessedFile := true }
      | .ok raw_text =>
        let document_chunks := chunk_text raw_text
        match env.storeErr with
        | some e =>
          { result := .error ⟨500, e⟩,
            tempFileRemains := true, streamClosed := true, accessedFile := true }
        | none =>
          { result := .ok ⟨"File successfully uploaded and processed.",
              filename, document_chunks.length⟩,
            tempFileRemains := true, streamClosed := true, accessedFile := true }

/-- Verbatim translation of the prompt template of `chat_with_document`
(src/backend/main.py:147-155), including the indentation and trailing
spaces of the Python triple-quoted literal. -/
def template : String :=
  "Use the following pieces of retrieved context to answer the question. \n        If you don\x27t know the answer, just say that you don\x27t know. \n        Keep the answer concise and professional.\n        \n        Context: \x7bcontext\x7d\n        \n        Question: \x7bquestion\x7d\n        \n        Answer:"

/-- First instruction sentence of the template: answer from the retrieved
context. -/
def instr_answer_from_context : String :=
  "Use the following pieces of retrieved context to answer the question."

/-- Second instruction sentence of the template: state that you do not
know when the answer is not known. -/
def instr_admit_unknown : String :=
  "If you don\x27t know the answer, just say that you don\x27t know."

/-- Third instruction sentence of the template: keep the answer concise. -/
def instr_concise : String :=
  "Keep the answer concise and professional."

/-- Template text before the context placeholder. -/
def tplA : String :=
  "Use the following pieces of retrieved context to answer the question. \n        If you don\x27t know the answer, just say that you don\x27t know. \n        Keep the answer concise and professional.\n        \n        Context: "

/-- Template text between the two placeholders. -/
def tplB : String :=
  "\n        \n        Question: "

/-- Template text after the question placeholder. -/
def tplC : String :=
  "\n        \n        Answer:"

/-- Translation of PromptTemplate.from_template followed by formatting
(src/backend/main.py:157-161): a single left-to-right pass over the
template replacing each context placeholder with `ctx` and each question
placeholder with `q`; inserted values are not rescanned, as in Python
string formatting. The template of this program contains no stray brace,
so the branch for a brace not opening a known placeholder is never taken
on it. `fuel` bounds the number of characters processed and only makes
the recursion structural; on exhaustion the remaining text is emitted
unchanged, a branch never reached when `fuel` is at least the length of
the input, as it is in `prompt_format`. -/
def fmtGo (ctx q : List Char) : Nat → List Char → List Char
  | _, [] => []
  | 0, l => l
  | fuel + 1, c :: rest =>
    if c = '\x7b' then
      if rest.take 8 = ['c', 'o', 'n', 't', 'e', 'x', 't', '\x7d'] then
        ctx ++ fmtGo ctx q fuel (rest.drop 8)
      else if rest.take 9 = ['q', 'u', 'e', 's', 't', 'i', 'o', 'n', '\x7d'] then
        q ++ fmtGo ctx q fuel (rest.drop 9)
      else c :: fmtGo ctx q fuel rest
    else c :: fmtGo ctx q fuel rest

/-- Prompt assembled by the chat handler for a retrieved context string
and a question (src/backend/main.py:157-167). -/
def prompt_format (ctx q : List Char) : List Char :=
  fmtGo ctx q template.toList.length template.toList

/-! Lemmas about the sliding-window chunker. -/

theorem windowGo_low (fuel : Nat) (t : List Char) (h : t.length ≤ 1000) :
    windowGo fuel t = if t.length = 0 then [] else [t] := by
  cases fuel with
  | zero => rfl
  | succ n => simp [windowGo, h]

theorem windowGo_high (fuel : Nat) (t : List Char) (h : 1000 < t.length) :
    windowGo (fuel + 1) t = t.take 1000 :: windowGo fuel (t.drop 800) := by
  have h2 : ¬ t.length ≤ 1000 := by omega
  simp [windowGo, h2]

theorem windowGo_fuel (f1 : Nat) : ∀ (t : List Char) (f2 : Nat),
    t.length ≤ f1 → t.length ≤ f2 → windowGo f1 t = windowGo f2 t := by
  induction f1 with
  | zero =>
    intro t f2 h1 h2
    rw [windowGo_low 0 t (by omega), windowGo_low f2 t (by omega)]
  | succ n ih =>
    intro t f2 h1 h2
    by_cases hlow : t.length ≤ 1000
    · rw [windowGo_low _ _ hlow, windowGo_low _ _ hlow]
    · have hhigh : 1000 < t.length := by omega
      cases f2 with
      | zero => omega
      | succ m =>
        rw [windowGo_high n t hhigh, windowGo_high m t hhigh]
        have hd : (t.drop 800).length = t.length - 800 := List.length_drop 800 t
        exact congrArg _ (ih (t.drop 800) m (by omega) (by omega))

theorem chunk_text_nil : chunk_text [] = [] := rfl

theorem chunk_text_short (t : List Char) (h0 : 0 < t.length) (h1 : t.length ≤ 1000) :
    chunk_text t = [t] := by
  rw [chunk_text, windowGo_low _ _ h1, if_neg (by omega)]

theorem chunk_text_step (t : List Char) (h : 1000 < t.length) :
    chunk_text t = t.take 1000 :: chunk_text (t.drop 800) := by
  have e : t.length = (t.length - 1) + 1 := by omega
  have hd : (t.drop 800).length = t.length - 800 := List.length_drop 800 t
  calc chunk_text t = windowGo ((t.length - 1) + 1) t := by rw [chunk_text, ← e]
    _ = t.take 1000 :: windowGo (t.length - 1) (t.drop 800) := windowGo_high _ t h
    _ = t.take 1000 :: windowGo (t.drop 800).length (t.drop 800) := by
        rw [windowGo_fuel (t.length - 1) (t.drop 800) (t.drop 800).length (by omega) (by omega)]
    _ = t.take 1000 :: chunk_text (t.drop 800) := rfl

theorem windowGo_flatten_drop (fuel : Nat) : ∀ t : List Char,
    t.length ≤ fuel → 0 < t.length →
    ((windowGo fuel t).map (fun c => c.drop 200)).flatten = t.drop 200 := by
  induction fuel with
  | zero => intro t h1 h2; omega
  | succ n ih =>
    intro t h1 h2
    by_cases hlow : t.length ≤ 1000
    · rw [windowGo_low _ _ hlow, if_neg (by omega)]
      simp
    · have hh : 1000 < t.length := by omega
      have hd : (t.drop 800).length = t.length - 800 := List.length_drop 800 t
      rw [windowGo_high n t hh, List.map_cons, List.flatten_cons,
        ih (t.drop 800) (by omega) (by omega)]
      have htd : List.take 800 (List.drop 200 t) = List.drop 200 (List.take 1000 t) :=
        List.take_drop 200 800 t
      have hdd : List.drop 200 (List.drop 800 t) = List.drop 1000 t :=
        List.drop_drop 200 800 t
      have hdd2 : List.drop 800 (List.drop 200 t) = List.drop 1000 t :=
        List.drop_drop 800 200 t
      rw [hdd, ← htd, ← hdd2]
      exact List.take_append_drop 800 (t.drop 200)

/-- C2: for every input text, concatenating the chunks produced by the
chunker while dropping the known 200-character overlap from each chunk
after the first reconstructs the input exactly. -/
theorem chunk_text_overlap_concat_id (t : List Char) :
    overlap_concat (chunk_text t) = t := by
  by_cases h0 : t.length = 0
  · rw [List.eq_nil_of_length_eq_zero h0]
    rfl
  · by_cases hlow : t.length ≤ 1000
    · rw [chunk_text_short t (by omega) hlow]
      simp [overlap_concat]
    · have hh : 1000 < t.length := by omega
      have hd : (t.drop 800).length = t.length - 800 := List.length_drop 800 t
      rw [chunk_text_step t hh]
      show t.take 1000 ++ ((chunk_text (t.drop 800)).map (fun d => d.drop 200)).flatten = t
      rw [chunk_text,
        windowGo_flatten_drop (t.drop 800).length (t.drop 800) (le_refl _) (by omega)]
      have hdd : List.drop 200 (List.drop 800 t) = List.drop 1000 t :=
        List.drop_drop 200 800 t
      rw [hdd]
      exact List.take_append_drop 1000 t

theorem chunk_text_len5000 (t : List Char) (h : t.length = 5000) :
    chunk_text t = [t.take 1000, (t.drop 800).take 1000, (t.drop 1600).take 1000,
      (t.drop 2400).take 1000, (t.drop 3200).take 1000, t.drop 4000] := by
  have l1 : (t.drop 800).length = 4200 := by rw [List.length_drop]; omega
  have l2 : (t.drop 1600).length = 3400 := by rw [List.length_drop]; omega
  have l3 : (t.drop 2400).length = 2600 := by rw [List.length_drop]; omega
  have l4 : (t.drop 3200).length = 1800 := by rw [List.length_drop]; omega
  have d1 : List.drop 800 (List.drop 800 t) = List.drop 1600 t := List.drop_drop 800 800 t
  have d2 : List.drop 800 (List.drop 1600 t) = List.drop 2400 t := List.drop_drop 800 1600 t
  have d3 : List.drop 800 (List.drop 2400 t) = List.drop 3200 t := List.drop_drop 800 2400 t
  have d4 : List.drop 800 (List.drop 3200 t) = List.drop 4000 t := List.drop_drop 800 3200 t
  rw [chunk_text_step t (by omega), chunk_text_step (t.drop 800) (by omega), d1,
    chunk_text_step (t.drop 1600) (by omega), d2,
    chunk_text_step (t.drop 2400) (by omega), d3,
    chunk_text_step (t.drop 3200) (by omega), d4,
    chunk_text_short (t.drop 4000) (by rw [List.length_drop]; omega)
      (by rw [List.length_drop]; omega)]

theorem take_take_200 (z : List Char) :
    List.take 200 (List.take 1000 z) = List.take 200 z := by
  rw [List.take_take]
  congr 1

theorem shares_overlap_take (x b : List Char) (hx : 1000 ≤ x.length)
    (hb : b.take 200 = (x.drop 800).take 200) :
    shares_overlap (x.take 1000) b := by
  unfold shares_overlap
  have hlen : (x.take 1000).length = 1000 := by
    rw [List.length_take]
    exact min_eq_left hx
  rw [hlen]
  show b.take 200 = List.drop 800 (List.take 1000 x)
  have h1 : List.take 200 (List.drop 800 x) = List.drop 800 (List.take 1000 x) :=
    List.take_drop 800 200 x
  rw [hb, h1]

theorem chunk_5000_chain (t : List Char) (h : t.length = 5000) :
    List.Chain' shares_overlap (chunk_text t) := by
  have d1 : List.drop 800 (List.drop 800 t) = List.drop 1600 t := List.drop_drop 800 800 t
  have d2 : List.drop 800 (List.drop 1600 t) = List.drop 2400 t := List.drop_drop 800 1600 t
  have d3 : List.drop 800 (List.drop 2400 t) = List.drop 3200 t := List.drop_drop 800 2400 t
  have d4 : List.drop 800 (List.drop 3200 t) = List.drop 4000 t := List.drop_drop 800 3200 t
  rw [chunk_text_len5000 t h]
  simp only [List.chain'_cons, List.chain'_singleton, and_true]
  refine ⟨?_, ?_, ?_, ?_, ?_⟩
  · exact shares_overlap_take t _ (by omega) (take_take_200 _)
  · exact shares_overlap_take (t.drop 800) _ (by rw [List.length_drop]; omega)
      (by rw [take_take_200, d1])
  · exact shares_overlap_take (t.drop 1600) _ (by rw [List.length_drop]; omega)
      (by rw [take_take_200, d2])
  · exact shares_overlap_take (t.drop 2400) _ (by rw [List.length_drop]; omega)
      (by rw [take_take_200, d3])
  · exact shares_overlap_take (t.drop 3200) _ (by rw [List.length_drop]; omega)
      (by rw [d4])

/-! Lemmas about the upload handler. -/

theorem upload_reject (filename : String) (env : UploadEnv)
    (h : endsWithPdf filename = false) :
    upload_file filename env =
      { result := .error ⟨400, "Invalid file type. Only PDFs are allowed."⟩,
        tempFileRemains := false, streamClosed := false, accessedFile := false } := by
  simp [upload_file, h]

theorem upload_success (filename : String) (env : UploadEnv)
    (h1 : endsWithPdf filename = true) (h2 : env.saveErr = none)
    (h3 : env.pdf.parseErr = none) (h4 : env.storeErr = none) :
    upload_file filename env =
      { result := .ok ⟨"File successfully uploaded and processed.", filename,
          (chunk_text (pages_text env.pdf.pages)).length⟩,
        tempFileRemains := true, streamClosed := true, accessedFile := true } := by
  simp [upload_file, h1, h2, h4, extract_text_from_pdf, h3]

/-! Lemmas about the text extractor. -/

theorem pages_text_spec_aux (pages : List (List Char)) : ∀ acc : List Char,
    pages.foldl (fun acc e => if e.isEmpty then acc else acc ++ e ++ ['\n']) acc
      = acc ++ extract_spec pages := by
  induction pages with
  | nil =>
    intro acc
    simp [extract_spec]
  | cons p ps ih =>
    intro acc
    rw [List.foldl_cons]
    cases hp : p.isEmpty
    · simp only [Bool.false_eq_true, if_false]
      rw [ih]
      simp [extract_spec, List.filter_cons, hp, List.append_assoc]
    · simp only [if_true]
      rw [ih]
      simp [extract_spec, List.filter_cons, hp]

theorem pages_text_eq_spec (pages : List (List Char)) :
    pages_text pages = extract_spec pages := by
  unfold pages_text
  rw [pages_text_spec_aux pages []]
  simp

/-! Lemmas about the prompt formatter. -/

theorem fmtGo_nil (ctx q : List Char) (fuel : Nat) : fmtGo ctx q fuel [] = [] := by
  cases fuel <;> rfl

theorem fmtGo_cons_ne (ctx q : List Char) (fuel : Nat) (c : Char) (l : List Char)
    (h : c ≠ '\x7b') :
    fmtGo ctx q (fuel + 1) (c :: l) = c :: fmtGo ctx q fuel l := by
  simp [fmtGo, h]

theorem fmtGo_ctx_tag (ctx q : List Char) (fuel : Nat) (rest : List Char) :
    fmtGo ctx q (fuel + 1)
      ('\x7b' :: ('c' :: 'o' :: 'n' :: 't' :: 'e' :: 'x' :: 't' :: '\x7d' :: rest)) =
      ctx ++ fmtGo ctx q fuel rest := rfl

theorem fmtGo_q_tag (ctx q : List Char) (fuel : Nat) (rest : List Char) :
    fmtGo ctx q (fuel + 1)
      ('\x7b' :: ('q' :: 'u' :: 'e' :: 's' :: 't' :: 'i' :: 'o' :: 'n' :: '\x7d' :: rest)) =
      q ++ fmtGo ctx q fuel rest := rfl

theorem fmtGo_skip (ctx q : List Char) (a : List Char) : ∀ (rest : List Char) (fuel : Nat),
    '\x7b' ∉ a →
    fmtGo ctx q (a.length + fuel) (a ++ rest) = a ++ fmtGo ctx q fuel rest := by
  induction a with
  | nil =>
    intro rest fuel h
    simp
  | cons c a ih =>
    intro rest fuel h
    have hc : c ≠ '\x7b' := by
      intro hc
      exact h (by rw [hc]; exact List.mem_cons_self _ _)
    have ha : ('\x7b' : Char) ∉ a := fun hm => h (List.mem_cons_of_mem c hm)
    have e : (c :: a).length + fuel = (a.length + fuel) + 1 := by
      rw [List.length_cons]
      omega
    rw [List.cons_append, e, fmtGo_cons_ne ctx q (a.length + fuel) c (a ++ rest) hc,
      ih rest fuel ha]
    rfl

theorem fmtGo_no_brace (ctx q : List Char) (a : List Char) : ∀ fuel : Nat,
    '\x7b' ∉ a → a.length ≤ fuel → fmtGo ctx q fuel a = a := by
  induction a with
  | nil =>
    intro fuel h hf
    exact fmtGo_nil ctx q fuel
  | cons c a ih =>
    intro fuel h hf
    have hc : c ≠ '\x7b' := by
      intro hc
      exact h (by rw [hc]; exact List.mem_cons_self _ _)
    have ha : ('\x7b' : Char) ∉ a := fun hm => h (List.mem_cons_of_mem c hm)
    cases fuel with
    | zero => simp at hf
    | succ f =>
      rw [fmtGo_cons_ne ctx q f c a hc, ih f ha (by simp at hf; omega)]

theorem prompt_format_eq (ctx q : List Char) :
    prompt_format ctx q = tplA.toList ++ ctx ++ tplB.toList ++ q ++ tplC.toList := by
  have hlen : template.toList.length = tplA.toList.length + 72 := by decide
  have hsplit : template.toList = tplA.toList ++
      ('\x7b' :: ('c' :: 'o' :: 'n' :: 't' :: 'e' :: 'x' :: 't' :: '\x7d' ::
        (tplB.toList ++ ('\x7b' :: ('q' :: 'u' :: 'e' :: 's' :: 't' :: 'i' :: 'o' :: 'n' ::
          '\x7d' :: tplC.toList))))) := by decide
  have hA : ('\x7b' : Char) ∉ tplA.toList := by decide
  have hB : ('\x7b' : Char) ∉ tplB.toList := by decide
  have hC : ('\x7b' : Char) ∉ tplC.toList := by decide
  unfold prompt_format
  rw [hlen, hsplit, fmtGo_skip ctx q tplA.toList _ 72 hA]
  have e1 : (72 : Nat) = 71 + 1 := rfl
  rw [e1, fmtGo_ctx_tag]
  have hlenB : (71 : Nat) = tplB.toList.length + 43 := by decide
  rw [hlenB, fmtGo_skip ctx q tplB.toList _ 43 hB]
  have e2 : (43 : Nat) = 42 + 1 := rfl
  rw [e2, fmtGo_q_tag]
  rw [fmtGo_no_brace ctx q tplC.toList 42 hC (by decide)]
  simp [List.append_assoc]

/-! Claim theorems. -/

/-- C1: the claim states that once the uploaded bytes have been persisted
to the temporary location, the temporary file is removed before the
operation returns on every exit path. The code contains no removal at
all: this theorem shows that on every invocation that persists the bytes,
the temporary file still exists when the handler returns or raises,
whatever the outcome of extraction, chunking and storing (success,
extraction failure, and embedding or store failure alike). -/
theorem upload_temp_file_never_removed (filename : String) (env : UploadEnv)
    (h1 : endsWithPdf filename = true) (h2 : env.saveErr = none) :
    (upload_file filename env).tempFileRemains = true := by
  rcases hE : extract_text_from_pdf env.pdf with e | raw
  · simp [upload_file, h1, h2, hE]
  · rcases hSt : env.storeErr with _ | st <;> simp [upload_file, h1, h2, hE, hSt]

/-- Witness for C1 at concrete inputs covering all three exit paths:
success, extraction failure, and store failure. -/
theorem upload_temp_file_never_removed_witness :
    (upload_file ("doc.pdf") ⟨none, ⟨none, [("hi").toList]⟩, none⟩).tempFileRemains = true ∧
    (upload_file ("doc.pdf") ⟨none, ⟨some ("bad pdf"), []⟩, none⟩).tempFileRemains = true ∧
    (upload_file ("doc.pdf") ⟨none, ⟨none, []⟩, some ("store down")⟩).tempFileRemains = true :=
  ⟨upload_temp_file_never_removed _ _ (by decide) rfl,
   upload_temp_file_never_removed _ _ (by decide) rfl,
   upload_temp_file_never_removed _ _ (by decide) rfl⟩

/-- C3: an upload whose filename does not end in .pdf is rejected with
status 400 before any file access: nothing is read or written and no
temporary file exists. -/
theorem upload_rejects_non_pdf_before_io (filename : String) (env : UploadEnv)
    (h : endsWithPdf filename = false) :
    (upload_file filename env).result =
      .error ⟨400, "Invalid file type. Only PDFs are allowed."⟩ ∧
    (upload_file filename env).accessedFile = false ∧
    (upload_file filename env).tempFileRemains = false := by
  rw [upload_reject filename env h]
  exact ⟨rfl, rfl, rfl⟩

/-- Witness for C3 at a concrete non-PDF filename. -/
theorem upload_rejects_non_pdf_before_io_witness :
    endsWithPdf ("doc.txt") = false ∧
    ((upload_file ("doc.txt") ⟨none, ⟨none, []⟩, none⟩).result =
      .error ⟨400, "Invalid file type. Only PDFs are allowed."⟩ ∧
     (upload_file ("doc.txt") ⟨none, ⟨none, []⟩, none⟩).accessedFile = false ∧
     (upload_file ("doc.txt") ⟨none, ⟨none, []⟩, none⟩).tempFileRemains = false) :=
  ⟨by decide, upload_rejects_non_pdf_before_io _ _ (by decide)⟩

/-- C4 counterexample: ingesting a document whose extracted text is a
5000-character plain string does not yield total_chunks = 5. At the
concrete input below (one page of 4999 characters; extraction appends one
newline, so the extracted text has exactly 5000 characters) the upload
succeeds with total_chunks = 6. -/
theorem upload_5000_not_five_chunks :
    (upload_file ("doc.pdf")
        ⟨none, ⟨none, [('a') :: List.replicate 4998 ('a')]⟩, none⟩).result ≠
      .ok ⟨"File successfully uploaded and processed.", "doc.pdf", 5⟩ := by
  have hp : pages_text [('a') :: List.replicate 4998 ('a')] =
      (('a') :: List.replicate 4998 ('a')) ++ ['\n'] := by
    simp only [pages_text, List.foldl_cons, List.foldl_nil, List.isEmpty_cons,
      Bool.false_eq_true, if_false, List.nil_append]
  have hlen : ((('a') :: List.replicate 4998 ('a')) ++ ['\n']).length = 5000 := by
    rw [List.length_append, List.length_cons, List.length_replicate]
    rfl
  rw [upload_success ("doc.pdf") _ (by decide) rfl rfl rfl, hp,
    chunk_text_len5000 _ hlen]
  intro hcontra
  injection hcontra with h
  injection h with hm hf ht
  simp only [List.length_cons, List.length_nil] at ht
  omega

/-- C4 (amended): ingesting a document whose extracted text is a
5000-character plain string under chunk_size 1000, overlap 200 yields
total_chunks = 6 (window starts 0, 800, 1600, 2400, 3200, 4000, matching
the spec arithmetic: the ceiling of (5000-200)/800 is 6, not 5), and each
adjacent pair of chunks shares a 200-character suffix/prefix overlap. -/
theorem upload_5000_yields_six_overlapping_chunks (filename : String) (env : UploadEnv)
    (t : List Char) (h1 : endsWithPdf filename = true) (h2 : env.saveErr = none)
    (h3 : env.pdf.parseErr = none) (h4 : env.storeErr = none)
    (h5 : pages_text env.pdf.pages = t) (h6 : t.length = 5000) :
    (upload_file filename env).result =
      .ok ⟨"File successfully uploaded and processed.", filename, 6⟩ ∧
    List.Chain' shares_overlap (chunk_text t) := by
  constructor
  · rw [upload_success filename env h1 h2 h3 h4, h5, chunk_text_len5000 t h6]
    rfl
  · exact chunk_5000_chain t h6

/-- Witness for C4 (amended) at a concrete 5000-character extracted text. -/
theorem upload_5000_yields_six_overlapping_chunks_witness :
    (upload_file ("doc.pdf")
        ⟨none, ⟨none, [('a') :: List.replicate 4998 ('a')]⟩, none⟩).result =
      .ok ⟨"File successfully uploaded and processed.", "doc.pdf", 6⟩ ∧
    List.Chain' shares_overlap
      (chunk_text ((('a') :: List.replicate 4998 ('a')) ++ ['\n'])) :=
  upload_5000_yields_six_overlapping_chunks _ _ _ (by decide) rfl rfl rfl
    (by simp only [pages_text, List.foldl_cons, List.foldl_nil, List.isEmpty_cons,
      Bool.false_eq_true, if_false, List.nil_append])
    (by rw [List.length_append, List.length_cons, List.length_replicate]; rfl)

/-- C5: for every retrieved context string and question, the prompt is
assembled from the fixed template: it is the template text with the
context and the question inserted verbatim at their placeholders, and the
template consists of the three fixed instruction sentences (answer from
the retrieved context; say that you do not know when the answer is not
known, the explicit-uncertainty instruction; keep the answer concise)
followed by the labelled context and question slots. -/
theorem chat_prompt_template_structure (ctx q : List Char) :
    prompt_format ctx q = tplA.toList ++ ctx ++ tplB.toList ++ q ++ tplC.toList ∧
    template = tplA ++ "\x7bcontext\x7d" ++ tplB ++ "\x7bquestion\x7d" ++ tplC ∧
    tplA = instr_answer_from_context ++ " \n        " ++ instr_admit_unknown ++
      " \n        " ++ instr_concise ++ "\n        \n        Context: " :=
  ⟨prompt_format_eq ctx q, by decide, by decide⟩

/-- C6: for every PDF that opens and parses successfully, the extractor
returns the concatenation, in page order, of each page text followed by a
newline, pages yielding no extractable text contributing nothing. -/
theorem extract_text_concat_pages (pdf : PdfRead) (h : pdf.parseErr = none) :
    extract_text_from_pdf pdf = .ok (extract_spec pdf.pages) := by
  simp [extract_text_from_pdf, h, pages_text_eq_spec]

/-- Witness for C6 at a concrete three-page document with an empty middle
page. -/
theorem extract_text_concat_pages_witness :
    extract_text_from_pdf ⟨none, [("hi").toList, [], ("yo").toList]⟩ =
      .ok (extract_spec [("hi").toList, [], ("yo").toList]) ∧
    extract_spec [("hi").toList, [], ("yo").toList] = ("hi\nyo\n").toList :=
  ⟨extract_text_concat_pages _ rfl, by decide⟩

/-- C7: chunking the empty text produces the empty chunk sequence, and an
empty chunker result during ingestion is valid: when extraction yields
the empty text and the external calls succeed, the upload returns success
with total_chunks = 0 instead of raising. -/
theorem chunk_empty_and_upload_zero_chunks :
    chunk_text [] = [] ∧
    ∀ (filename : String) (env : UploadEnv), endsWithPdf filename = true →
      env.saveErr = none → env.pdf.parseErr = none → env.storeErr = none →
      pages_text env.pdf.pages = [] →
      (upload_file filename env).result =
        .ok ⟨"File successfully uploaded and processed.", filename, 0⟩ := by
  refine ⟨rfl, ?_⟩
  intro filename env h1 h2 h3 h4 h5
  rw [upload_success filename env h1 h2 h3 h4, h5]
  rfl

/-- Witness for C7 at a concrete upload whose PDF has no pages, so the
extracted text is empty. -/
theorem chunk_empty_and_upload_zero_chunks_witness :
    chunk_text [] = [] ∧
    (upload_file ("doc.pdf") ⟨none, ⟨none, []⟩, none⟩).result =
      .ok ⟨"File successfully uploaded and processed.", "doc.pdf", 0⟩ :=
  ⟨(chunk_empty_and_upload_zero_chunks).1,
   (chunk_empty_and_upload_zero_chunks).2 ("doc.pdf") _ (by decide) rfl rfl rfl rfl⟩

/-- C8: the chunker is deterministic: it is a pure function of the input
text and the fixed configuration, so two invocations on the same text
produce identical chunk sequences. -/
theorem chunk_text_deterministic (t1 t2 : List Char) (h : t1 = t2) :
    chunk_text t1 = chunk_text t2 := by
  rw [h]

/-- Witness for C8: two invocations on a concrete text agree, and the
common value is the single chunk holding the whole text. -/
theorem chunk_text_deterministic_witness :
    chunk_text (("hello").toList) = chunk_text (("hello").toList) ∧
    chunk_text (("hello").toList) = [("hello").toList] :=
  ⟨chunk_text_deterministic _ _ rfl, by decide⟩

/-- C9: the extension check is case sensitive: every filename whose final
four characters lowercase to .pdf but are not exactly the lowercase .pdf
(an uppercase or mixed-case variant such as .PDF) is rejected with status
400. -/
theorem upload_extension_check_case_sensitive (filename : String) (env : UploadEnv)
    (_hvariant : (filename.toList.drop (filename.toList.length - 4)).map Char.toLower =
      (".pdf").toList)
    (hne : filename.toList.drop (filename.toList.length - 4) ≠ (".pdf").toList) :
    (upload_file filename env).result =
      .error ⟨400, "Invalid file type. Only PDFs are allowed."⟩ := by
  have h : endsWithPdf filename = false := by
    unfold endsWithPdf
    exact beq_eq_false_iff_ne.mpr hne
  rw [upload_reject filename env h]

/-- Witness for C9 at the concrete filename doc.PDF. -/
theorem upload_extension_check_case_sensitive_witness :
    (upload_file ("doc.PDF") ⟨none, ⟨none, []⟩, none⟩).result =
      .error ⟨400, "Invalid file type. Only PDFs are allowed."⟩ :=
  upload_extension_check_case_sensitive _ _ (by decide) (by decide)

/-- C10: for every upload that passes filename validation, the uploaded
file stream is closed before the handler proceeds or raises, both when
persisting the bytes succeeds and when it fails with status 500 (the
finally block of the source). -/
theorem upload_stream_closed_on_all_paths (filename : String) (env : UploadEnv)
    (h : endsWithPdf filename = true) :
    (upload_file filename env).streamClosed = true := by
  rcases hS : env.saveErr with _ | s
  · rcases hE : extract_text_from_pdf env.pdf with e | raw
    · simp [upload_file, h, hS, hE]
    · rcases hSt : env.storeErr with _ | st <;> simp [upload_file, h, hS, hE, hSt]
  · simp [upload_file, h, hS]

/-- Witness for C10 at concrete inputs covering the save-success and the
save-failure path. -/
theorem upload_stream_closed_on_all_paths_witness :
    (upload_file ("doc.pdf") ⟨none, ⟨none, []⟩, none⟩).streamClosed = true ∧
    (upload_file ("doc.pdf") ⟨some ("disk full"), ⟨none, []⟩, none⟩).streamClosed = true :=
  ⟨upload_stream_closed_on_all_paths _ _ (by decide),
   upload_stream_closed_on_all_paths _ _ (by decide)⟩
